import Mathlib

/-
Verification development for the movie/actor catalog server
(FastAPI + strawberry GraphQL, cookie-session auth layer).

Shallow embedding of:
  src/auth/sessions.py   - in-memory session store (create / resolve / revoke)
  src/auth/utils.py      - require_login auth gate
  src/main.py            - the served schema: Query/Mutation over MOVIES, no auth gate
  src/app_graphql/schema.py - the auth-gated schema: six mutations over MOVIES/ACTORS

Modelling conventions:
  * Python datetimes are modelled as Nat timestamps counted in minutes, so the
    120-minute TTL is the literal constant SESSION_TTL_MINUTES.
  * The session dict is an association list of (session id, SessionData);
    dict lookup is first-match lookup, dict.pop removes the key.
  * Python float ratings are modelled as rationals: the code performs no float
    arithmetic, only literals, comparisons against 0.0/5.0, and storage, all of
    which are exact.
  * str.strip() is modelled by stripChars, dropping leading/trailing whitespace.
  * A raised exception is modelled with Except: mutations return the Except
    result paired with the (unchanged, on error) global state.
-/

namespace Sessions

/-- how long a session should live (in minutes) - src/auth/sessions.py line 7 -/
def SESSION_TTL_MINUTES : Nat := 120

/-- value stored for one session id: user_id plus expiry timestamp -/
structure SessionData where
  user_id : Nat
  expires_at : Nat
deriving DecidableEq, Repr

/-- the in-memory map session_id to SessionData, as an association list -/
abbrev Store := List (String × SessionData)

/-- dict lookup: first entry with the given key -/
def storeGet : Store → String → Option SessionData
  | [], _ => none
  | (k, v) :: rest, key => if k = key then some v else storeGet rest key

/-- dict.pop with default: drop the entry with the given key -/
def storeRemove (s : Store) (key : String) : Store :=
  s.filter (fun kv => kv.1 ≠ key)

/-- dict assignment d[k] = v -/
def storeSet (s : Store) (key : String) (v : SessionData) : Store :=
  (key, v) :: storeRemove s key

/-- create_session: store a fresh session for user_id expiring TTL from now and
return its id.  The random uuid is an external input, passed as sid. -/
def create_session (sid : String) (user_id : Nat) (now : Nat) (s : Store) :
    String × Store :=
  (sid, storeSet s sid ⟨user_id, now + SESSION_TTL_MINUTES⟩)

/-- get_user_id: return the user_id if the session is valid and not expired.
Empty or absent cookie and unknown ids give none; an expired entry is removed
lazily and none is returned. -/
def get_user_id (session_id : Option String) (now : Nat) (s : Store) :
    Option Nat × Store :=
  match session_id with
  | none => (none, s)
  | some sid =>
    if sid = "" then (none, s)
    else
      match storeGet s sid with
      | none => (none, s)
      | some data =>
        if data.expires_at < now then (none, storeRemove s sid)
        else (some data.user_id, s)

/-- delete_session: invalidate a session (used on logout); no error if the
cookie value is absent, empty, or unknown. -/
def delete_session (session_id : Option String) (s : Store) : Store :=
  match session_id with
  | none => s
  | some sid => if sid = "" then s else storeRemove s sid

end Sessions

namespace Auth

/-- user record from src/auth/users.py -/
structure User where
  id : Nat
  email : String
  hashed_password : String
  is_active : Bool
deriving DecidableEq, Repr

/-- per-request context as read by require_login: the resolved user, if any.
A present User dataclass instance is always truthy in Python, so the gate's
truthiness test is exactly a test for presence. -/
structure Context where
  user : Option User
deriving DecidableEq, Repr

/-- require_login from src/auth/utils.py: return the context user, or raise
Exception with message Login required when no user is resolved. -/
def require_login (ctx : Context) : Except String User :=
  match ctx.user with
  | none => Except.error "Login required"
  | some u => Except.ok u

end Auth

namespace Catalog

/-- str.strip(): drop leading and trailing whitespace characters -/
def stripChars (s : String) : String :=
  String.mk (((s.data.dropWhile Char.isWhitespace).reverse.dropWhile
    Char.isWhitespace).reverse)

/-- Movie record (id, title, year, rating) shared by both schema modules -/
structure Movie where
  id : Nat
  title : String
  year : Int
  rating : ℚ
deriving DecidableEq, Repr

/-- Actor record (id, name, movie_id) shared by both schema modules -/
structure Actor where
  id : Nat
  name : String
  movie_id : Nat
deriving DecidableEq, Repr

/-- client input for add_movie -/
structure AddMovieInput where
  title : String
  year : Int
  rating : ℚ
deriving DecidableEq, Repr

/-- structured response of add_movie -/
structure AddMoviePayload where
  ok : Bool
  error : Option String
  movie : Option Movie
deriving DecidableEq, Repr

/-- client input for update_movie: id plus optional fields -/
structure UpdateMovieInput where
  id : Nat
  title : Option String := none
  year : Option Int := none
  rating : Option ℚ := none
deriving DecidableEq, Repr

/-- structured response of update_movie -/
structure UpdateMoviePayload where
  ok : Bool
  error : Option String
  movie : Option Movie
deriving DecidableEq, Repr

/-- client input for delete_movie -/
structure DeleteMovieInput where
  id : Nat
deriving DecidableEq, Repr

/-- structured response of delete_movie -/
structure DeleteMoviePayload where
  ok : Bool
  error : Option String
  movie : Option Movie
deriving DecidableEq, Repr

/-- client input for add_actor -/
structure AddActorInput where
  name : String
  movie_id : Nat
deriving DecidableEq, Repr

/-- client input for update_actor: id plus optional fields -/
structure UpdateActorInput where
  id : Nat
  name : Option String := none
  movie_id : Option Nat := none
deriving DecidableEq, Repr

/-- structured response of update_actor -/
structure UpdateActorPayload where
  ok : Bool
  error : Option String
  actor : Option Actor
deriving DecidableEq, Repr

/-- client input for delete_actor -/
structure DeleteActorInput where
  id : Nat
deriving DecidableEq, Repr

/-- structured response of delete_actor -/
structure DeleteActorPayload where
  ok : Bool
  error : Option String
  actor : Option Actor
deriving DecidableEq, Repr

/-- MOVIES.pop(i) at the first index whose movie has the given id; none when
no movie matches.  Returns the removed movie and the remaining list. -/
def popFirstMovie (i : Nat) : List Movie → Option (Movie × List Movie)
  | [] => none
  | m :: rest =>
    if m.id = i then some (m, rest)
    else
      match popFirstMovie i rest with
      | none => none
      | some (r, rest') => some (r, m :: rest')

/-- setattr on the found movie for each provided (non-None) field; the id key
is popped from the update dict, so id is never written. -/
def applyMovieUpdate (m : Movie) (input : UpdateMovieInput) : Movie :=
  { m with
    title := input.title.getD m.title
    year := input.year.getD m.year
    rating := input.rating.getD m.rating }

/-- in-place mutation of the first movie whose id matches input.id: returns
the updated movie together with the whole updated list, or none when the id
matches no movie (the Python code finds the target by reference with next()
and mutates it where it sits). -/
def updateFirstMovie (input : UpdateMovieInput) :
    List Movie → Option (Movie × List Movie)
  | [] => none
  | m :: rest =>
    if m.id = input.id then
      some (applyMovieUpdate m input, applyMovieUpdate m input :: rest)
    else
      match updateFirstMovie input rest with
      | none => none
      | some (u, rest') => some (u, m :: rest')

/-- ACTORS.pop(i) at the first index whose actor has the given id -/
def popFirstActor (i : Nat) : List Actor → Option (Actor × List Actor)
  | [] => none
  | a :: rest =>
    if a.id = i then some (a, rest)
    else
      match popFirstActor i rest with
      | none => none
      | some (r, rest') => some (r, a :: rest')

/-- setattr on the found actor for each provided (non-None) field; id popped -/
def applyActorUpdate (a : Actor) (input : UpdateActorInput) : Actor :=
  { a with
    name := input.name.getD a.name
    movie_id := input.movie_id.getD a.movie_id }

/-- in-place mutation of the first actor whose id matches input.id -/
def updateFirstActor (input : UpdateActorInput) :
    List Actor → Option (Actor × List Actor)
  | [] => none
  | a :: rest =>
    if a.id = input.id then
      some (applyActorUpdate a input, applyActorUpdate a input :: rest)
    else
      match updateFirstActor input rest with
      | none => none
      | some (u, rest') => some (u, a :: rest')

end Catalog

namespace Main

open Catalog

/-- the module-level mutable state of src/main.py: the MOVIES list and the
NEXT_ID counter (ACTORS is read-only there, no actor mutation exists) -/
structure MovieState where
  movies : List Movie
  nextId : Nat
deriving DecidableEq, Repr

/-- seed catalog of src/main.py: Inception and Interstellar, NEXT_ID = 3 -/
def mainSeed : MovieState :=
  { movies :=
      [ { id := 1, title := "Inception", year := 2010, rating := 4.8 }
      , { id := 2, title := "Interstellar", year := 2014, rating := 4.6 } ]
  , nextId := 3 }

/-- Mutation.add_movie of src/main.py: validate title and rating, then append
a movie carrying the NEXT_ID id and bump the counter.  No auth gate is called
in this module. -/
def add_movie (s : MovieState) (input : AddMovieInput) :
    AddMoviePayload × MovieState :=
  if stripChars input.title = "" then
    ({ ok := false, error := some "Title cannot be empty", movie := none }, s)
  else if ¬ ((0 : ℚ) ≤ input.rating ∧ input.rating ≤ 5) then
    ({ ok := false, error := some "Rating must be between 0 and 5",
       movie := none }, s)
  else
    let new_movie : Movie :=
      { id := s.nextId, title := input.title, year := input.year,
        rating := input.rating }
    ({ ok := true, error := none, movie := some new_movie },
     { movies := s.movies ++ [new_movie], nextId := s.nextId + 1 })

/-- Mutation.delete_movie of src/main.py: pop the first movie with the id -/
def delete_movie (s : MovieState) (input : DeleteMovieInput) :
    DeleteMoviePayload × MovieState :=
  match popFirstMovie input.id s.movies with
  | some (removed, rest) =>
    ({ ok := true, error := none, movie := some removed },
     { s with movies := rest })
  | none =>
    ({ ok := false, error := some "Movie not found", movie := none }, s)

/-- Mutation.update_movie of src/main.py: find the first movie with the id
(the not-found error text is the reused rating message), validate the rating
when provided, then apply the provided fields in place.  applyMovieUpdate is
pure, so computing it inside updateFirstMovie before the rating check is
observationally equal to the find / validate / mutate order of the source. -/
def update_movie (s : MovieState) (input : UpdateMovieInput) :
    UpdateMoviePayload × MovieState :=
  match updateFirstMovie input s.movies with
  | none =>
    ({ ok := false, error := some "Rating must be between 0 and 5",
       movie := none }, s)
  | some (target, ms') =>
    match input.rating with
    | some r =>
      if ¬ ((0 : ℚ) ≤ r ∧ r ≤ 5) then
        ({ ok := false, error := some "Rating must be between 0 and 5",
           movie := none }, s)
      else
        ({ ok := true, error := none, movie := some target },
         { s with movies := ms' })
    | none =>
      ({ ok := true, error := none, movie := some target },
       { s with movies := ms' })

end Main

namespace AppSchema

open Catalog Auth

/-- the module-level mutable state of src/app_graphql/schema.py: the ACTORS
list, the MOVIES list and the NEXT_ID counter -/
structure State where
  actors : List Actor
  movies : List Movie
  nextId : Nat
deriving DecidableEq, Repr

/-- seed catalog of src/app_graphql/schema.py -/
def schemaSeed : State :=
  { actors :=
      [ { id := 1, name := "Leonardo DiCaprio", movie_id := 1 }
      , { id := 2, name := "Joseph Gordon-Levitt", movie_id := 1 }
      , { id := 3, name := "Matthew McConaughey", movie_id := 2 }
      , { id := 4, name := "Anne Hathaway", movie_id := 2 } ]
  , movies :=
      [ { id := 1, title := "Inception", year := 2010, rating := 4.8 }
      , { id := 2, title := "Interstellar", year := 2014, rating := 4.6 } ]
  , nextId := 3 }

/-- Mutation.add_actor: gate, then append an actor whose id is one more than
the maximum existing id (0 when the list is empty; for Nat ids, folding max
from 0 equals the max-with-default of the source).  Returns the bare Actor,
not an ok/error payload. -/
def add_actor (ctx : Context) (s : State) (input : AddActorInput) :
    Except String Actor × State :=
  match require_login ctx with
  | Except.error e => (Except.error e, s)
  | Except.ok _ =>
    let new_id := (s.actors.map (fun a => a.id)).foldl max 0 + 1
    let new_actor : Actor :=
      { id := new_id, name := input.name, movie_id := input.movie_id }
    (Except.ok new_actor, { s with actors := s.actors ++ [new_actor] })

/-- Mutation.delete_actor: gate, then pop the first actor with the id -/
def delete_actor (ctx : Context) (s : State) (input : DeleteActorInput) :
    Except String DeleteActorPayload × State :=
  match require_login ctx with
  | Except.error e => (Except.error e, s)
  | Except.ok _ =>
    match popFirstActor input.id s.actors with
    | some (removed, rest) =>
      (Except.ok { ok := true, error := none, actor := some removed },
       { s with actors := rest })
    | none =>
      (Except.ok { ok := false, error := some "Actor not found",
                   actor := none }, s)

/-- Mutation.update_actor: gate, find the first actor with the id, apply the
provided fields in place -/
def update_actor (ctx : Context) (s : State) (input : UpdateActorInput) :
    Except String UpdateActorPayload × State :=
  match require_login ctx with
  | Except.error e => (Except.error e, s)
  | Except.ok _ =>
    match updateFirstActor input s.actors with
    | none =>
      (Except.ok { ok := false, error := some "Actor not found",
                   actor := none }, s)
    | some (target, as') =>
      (Except.ok { ok := true, error := none, actor := some target },
       { s with actors := as' })

/-- Mutation.add_movie of src/app_graphql/schema.py: identical to the main.py
version except that require_login runs before any validation or side effect -/
def add_movie (ctx : Context) (s : State) (input : AddMovieInput) :
    Except String AddMoviePayload × State :=
  match require_login ctx with
  | Except.error e => (Except.error e, s)
  | Except.ok _ =>
    if stripChars input.title = "" then
      (Except.ok { ok := false, error := some "Title cannot be empty",
                   movie := none }, s)
    else if ¬ ((0 : ℚ) ≤ input.rating ∧ input.rating ≤ 5) then
      (Except.ok { ok := false, error := some "Rating must be between 0 and 5",
                   movie := none }, s)
    else
      let new_movie : Movie :=
        { id := s.nextId, title := input.title, year := input.year,
          rating := input.rating }
      (Except.ok { ok := true, error := none, movie := some new_movie },
       { s with movies := s.movies ++ [new_movie], nextId := s.nextId + 1 })

/-- Mutation.delete_movie of src/app_graphql/schema.py: gate, then pop -/
def delete_movie (ctx : Context) (s : State) (input : DeleteMovieInput) :
    Except String DeleteMoviePayload × State :=
  match require_login ctx with
  | Except.error e => (Except.error e, s)
  | Except.ok _ =>
    match popFirstMovie input.id s.movies with
    | some (removed, rest) =>
      (Except.ok { ok := true, error := none, movie := some removed },
       { s with movies := rest })
    | none =>
      (Except.ok { ok := false, error := some "Movie not found",
                   movie := none }, s)

/-- Mutation.update_movie of src/app_graphql/schema.py: gate, find (not-found
reuses the rating message), validate rating, apply fields -/
def update_movie (ctx : Context) (s : State) (input : UpdateMovieInput) :
    Except String UpdateMoviePayload × State :=
  match require_login ctx with
  | Except.error e => (Except.error e, s)
  | Except.ok _ =>
    match updateFirstMovie input s.movies with
    | none =>
      (Except.ok { ok := false, error := some "Rating must be between 0 and 5",
                   movie := none }, s)
    | some (target, ms') =>
      match input.rating with
      | some r =>
        if ¬ ((0 : ℚ) ≤ r ∧ r ≤ 5) then
          (Except.ok { ok := false,
                       error := some "Rating must be between 0 and 5",
                       movie := none }, s)
        else
          (Except.ok { ok := true, error := none, movie := some target },
           { s with movies := ms' })
      | none =>
        (Except.ok { ok := true, error := none, movie := some target },
         { s with movies := ms' })

end AppSchema

namespace Render

open Catalog

/-- graph response values, as the endpoint serialises them -/
inductive JVal where
  | jnull : JVal
  | jbool : Bool → JVal
  | jnum : ℚ → JVal
  | jstr : String → JVal
  | jobj : List (String × JVal) → JVal

/-- serialise an optional value, absent as null -/
def renderOpt (f : α → JVal) : Option α → JVal
  | none => JVal.jnull
  | some a => f a

/-- serialise a Movie record -/
def renderMovie (m : Movie) : JVal :=
  JVal.jobj
    [ ("id", JVal.jnum m.id)
    , ("title", JVal.jstr m.title)
    , ("year", JVal.jnum m.year)
    , ("rating", JVal.jnum m.rating) ]

/-- serialise an Actor record -/
def renderActor (a : Actor) : JVal :=
  JVal.jobj
    [ ("id", JVal.jnum a.id)
    , ("name", JVal.jstr a.name)
    , ("movie_id", JVal.jnum a.movie_id) ]

/-- serialise an AddMoviePayload response -/
def renderAddMoviePayload (p : AddMoviePayload) : JVal :=
  JVal.jobj
    [ ("ok", JVal.jbool p.ok)
    , ("error", renderOpt JVal.jstr p.error)
    , ("movie", renderOpt renderMovie p.movie) ]

/-- serialise an UpdateMoviePayload response -/
def renderUpdateMoviePayload (p : UpdateMoviePayload) : JVal :=
  JVal.jobj
    [ ("ok", JVal.jbool p.ok)
    , ("error", renderOpt JVal.jstr p.error)
    , ("movie", renderOpt renderMovie p.movie) ]

/-- serialise a DeleteMoviePayload response -/
def renderDeleteMoviePayload (p : DeleteMoviePayload) : JVal :=
  JVal.jobj
    [ ("ok", JVal.jbool p.ok)
    , ("error", renderOpt JVal.jstr p.error)
    , ("movie", renderOpt renderMovie p.movie) ]

/-- serialise an UpdateActorPayload response -/
def renderUpdateActorPayload (p : UpdateActorPayload) : JVal :=
  JVal.jobj
    [ ("ok", JVal.jbool p.ok)
    , ("error", renderOpt JVal.jstr p.error)
    , ("actor", renderOpt renderActor p.actor) ]

/-- serialise a DeleteActorPayload response -/
def renderDeleteActorPayload (p : DeleteActorPayload) : JVal :=
  JVal.jobj
    [ ("ok", JVal.jbool p.ok)
    , ("error", renderOpt JVal.jstr p.error)
    , ("actor", renderOpt renderActor p.actor) ]

/-- serialised response of the add_actor mutation: the bare Actor record on
success (its declared GraphQL return type is Actor), null when the resolver
raised -/
def addActorResponse (ctx : Auth.Context) (s : AppSchema.State)
    (input : AddActorInput) : JVal :=
  match (AppSchema.add_actor ctx s input).1 with
  | Except.ok a => renderActor a
  | Except.error _ => JVal.jnull

/-- the uniform mutation payload shape of the spec: an object of exactly the
fields ok (boolean), error (string or null), entity (object or null) -/
def isUniformPayload : JVal → Bool
  | JVal.jobj [("ok", JVal.jbool _), ("error", e), (_, ent)] =>
    (match e with
     | JVal.jnull => true
     | JVal.jstr _ => true
     | _ => false)
    &&
    (match ent with
     | JVal.jnull => true
     | JVal.jobj _ => true
     | _ => false)
  | _ => false

/-- whether a serialised object carries a field of the given name -/
def hasField (j : JVal) (k : String) : Bool :=
  match j with
  | JVal.jobj fields => fields.any (fun kv => kv.1 == k)
  | _ => false

end Render

/-- request context with no resolved user (anonymous request) -/
def ctxAnon : Auth.Context := { user := none }

/-- request context whose resolved user is the seeded demo account -/
def ctxDemo : Auth.Context :=
  { user := some { id := 1, email := "demo@example.com",
                   hashed_password := "pbkdf2-hash", is_active := true } }

/-- invariant of the movie catalog state: every stored movie id is strictly
below the NEXT_ID counter, and the stored ids are pairwise distinct -/
def MovieInv (s : Main.MovieState) : Prop :=
  (∀ m ∈ s.movies, m.id < s.nextId) ∧
  (s.movies.map (fun m => m.id)).Nodup

instance (s : Main.MovieState) : Decidable (MovieInv s) := by
  unfold MovieInv; infer_instance

section SessionLemmas

/-- removing a key makes it unfindable -/
theorem storeGet_storeRemove (s : Sessions.Store) (k : String) :
    Sessions.storeGet (Sessions.storeRemove s k) k = none := by
  induction s with
  | nil => rfl
  | cons kv rest ih =>
    by_cases h : kv.1 = k
    · simpa [Sessions.storeRemove, h] using ih
    · simpa [Sessions.storeRemove, Sessions.storeGet, h] using ih

/-- removing a key twice equals removing it once -/
theorem storeRemove_idem (s : Sessions.Store) (k : String) :
    Sessions.storeRemove (Sessions.storeRemove s k) k
      = Sessions.storeRemove s k := by
  simp [Sessions.storeRemove, List.filter_filter]

end SessionLemmas

/-- C2: get_user_id returns none and leaves the store unchanged when the token
is absent, empty, or unknown; on a known but expired token it removes the
entry and returns none, and an immediately repeated resolve of the same token
again returns none on the pruned store; on a known unexpired token it returns
the stored user id with the store untouched. -/
theorem C2_get_user_id_spec :
    (∀ now s, Sessions.get_user_id none now s = (none, s)) ∧
    (∀ now s, Sessions.get_user_id (some "") now s = (none, s)) ∧
    (∀ sid now s, Sessions.storeGet s sid = none →
      Sessions.get_user_id (some sid) now s = (none, s)) ∧
    (∀ sid now s d, sid ≠ "" → Sessions.storeGet s sid = some d →
      d.expires_at < now →
      Sessions.get_user_id (some sid) now s
        = (none, Sessions.storeRemove s sid) ∧
      Sessions.get_user_id (some sid) now (Sessions.storeRemove s sid)
        = (none, Sessions.storeRemove s sid)) ∧
    (∀ sid now s d, sid ≠ "" → Sessions.storeGet s sid = some d →
      ¬ d.expires_at < now →
      Sessions.get_user_id (some sid) now s = (some d.user_id, s)) := by
  refine ⟨fun now s => rfl, fun now s => rfl, ?_, ?_, ?_⟩
  · intro sid now s hget
    by_cases hsid : sid = ""
    · simp [Sessions.get_user_id, hsid]
    · simp [Sessions.get_user_id, hsid, hget]
  · intro sid now s d hsid hget hexp
    refine ⟨?_, ?_⟩
    · simp [Sessions.get_user_id, hsid, hget, hexp]
    · simp [Sessions.get_user_id, hsid, storeGet_storeRemove]
  · intro sid now s d hsid hget hexp
    simp [Sessions.get_user_id, hsid, hget, hexp]

/-- C2 witness: on the concrete one-entry store holding token t for user 7
expiring at minute 10, resolving at minute 11 removes the entry and returns
none, resolving again still returns none; resolving at minute 10 returns
user 7 and leaves the store unchanged. -/
theorem C2_witness :
    ("t" : String) ≠ "" ∧
    Sessions.storeGet [("t", ⟨7, 10⟩)] "t" = some ⟨7, 10⟩ ∧
    (10 : Nat) < 11 ∧ ¬ (10 : Nat) < 10 ∧
    (Sessions.get_user_id (some "t") 11 [("t", ⟨7, 10⟩)]
        = (none, Sessions.storeRemove [("t", ⟨7, 10⟩)] "t") ∧
      Sessions.get_user_id (some "t") 11
          (Sessions.storeRemove [("t", ⟨7, 10⟩)] "t")
        = (none, Sessions.storeRemove [("t", ⟨7, 10⟩)] "t")) ∧
    Sessions.get_user_id (some "t") 10 [("t", ⟨7, 10⟩)]
      = (some 7, [("t", ⟨7, 10⟩)]) :=
  ⟨by decide, by decide, by decide, by decide,
   C2_get_user_id_spec.2.2.2.1 "t" 11 [("t", ⟨7, 10⟩)] ⟨7, 10⟩
     (by decide) (by decide) (by decide),
   C2_get_user_id_spec.2.2.2.2 "t" 10 [("t", ⟨7, 10⟩)] ⟨7, 10⟩
     (by decide) (by decide) (by decide)⟩

/-- C3: delete_session (revoke) is total for absent, empty, unknown and live
tokens; resolving a token right after revoking it returns none; and revoking
twice equals revoking once (idempotent, no error). -/
theorem C3_delete_session_spec :
    ∀ tok now s,
      (Sessions.get_user_id tok now (Sessions.delete_session tok s)).1
        = none ∧
      Sessions.delete_session tok (Sessions.delete_session tok s)
        = Sessions.delete_session tok s := by
  intro tok now s
  match tok with
  | none => exact ⟨rfl, rfl⟩
  | some sid =>
    by_cases hsid : sid = ""
    · subst hsid
      exact ⟨rfl, rfl⟩
    · refine ⟨?_, ?_⟩
      · simp [Sessions.delete_session, Sessions.get_user_id, hsid,
              storeGet_storeRemove]
      · simp [Sessions.delete_session, hsid, storeRemove_idem]

/-- C4: the session TTL constant is 120 minutes; create_session stores the
new session with expires_at equal to its creation time plus exactly that TTL;
and neither resolve nor revoke ever rewrites an entry - every entry of the
store after the call is literally an entry of the store before it (so a
successful resolve never refreshes the TTL). -/
theorem C4_session_ttl_spec :
    Sessions.SESSION_TTL_MINUTES = 120 ∧
    (∀ sid uid now s,
      Sessions.storeGet (Sessions.create_session sid uid now s).2 sid
        = some { user_id := uid,
                 expires_at := now + Sessions.SESSION_TTL_MINUTES }) ∧
    (∀ tok now s, ((Sessions.get_user_id tok now s).2).Sublist s) ∧
    (∀ tok s, (Sessions.delete_session tok s).Sublist s) := by
  refine ⟨rfl, ?_, ?_, ?_⟩
  · intro sid uid now s
    simp [Sessions.create_session, Sessions.storeSet, Sessions.storeGet]
  · intro tok now s
    match tok with
    | none => exact List.Sublist.refl s
    | some sid =>
      by_cases hsid : sid = ""
      · simp [Sessions.get_user_id, hsid]
      · simp only [Sessions.get_user_id, hsid, if_neg]
        cases hget : Sessions.storeGet s sid with
        | none => simp
        | some d =>
          by_cases hexp : d.expires_at < now
          · simp [hexp, Sessions.storeRemove, List.filter_sublist]
          · simp [hexp]
  · intro tok s
    match tok with
    | none => exact List.Sublist.refl s
    | some sid =>
      by_cases hsid : sid = ""
      · simp [Sessions.delete_session, hsid]
      · simp [Sessions.delete_session, hsid, Sessions.storeRemove,
              List.filter_sublist]

section CatalogLemmas

open Catalog

/-- applying an update never changes the movie id (the id key is popped) -/
theorem applyMovieUpdate_id (m : Movie) (input : UpdateMovieInput) :
    (applyMovieUpdate m input).id = m.id := rfl

/-- when no movie carries the requested id, updateFirstMovie finds nothing -/
theorem updateFirstMovie_eq_none (input : UpdateMovieInput) :
    ∀ l : List Movie, (∀ m ∈ l, m.id ≠ input.id) →
      updateFirstMovie input l = none := by
  intro l
  induction l with
  | nil => intro _; rfl
  | cons m rest ih =>
    intro h
    have hm : m.id ≠ input.id := h m (List.mem_cons_self m rest)
    have hrest := ih (fun x hx => h x (List.mem_cons_of_mem m hx))
    simp [updateFirstMovie, hm, hrest]

/-- when some movie carries the requested id, updateFirstMovie updates the
first such movie in place and the updated movie is a member of the result -/
theorem updateFirstMovie_found (input : UpdateMovieInput) :
    ∀ l : List Movie, (∃ m ∈ l, m.id = input.id) →
      ∃ m l', m ∈ l ∧ m.id = input.id ∧
        updateFirstMovie input l = some (applyMovieUpdate m input, l') ∧
        applyMovieUpdate m input ∈ l' := by
  intro l
  induction l with
  | nil => rintro ⟨m, hm, _⟩; exact absurd hm (List.not_mem_nil m)
  | cons a rest ih =>
    rintro ⟨m, hm, hid⟩
    by_cases ha : a.id = input.id
    · exact ⟨a, applyMovieUpdate a input :: rest,
        List.mem_cons_self a rest, ha,
        by simp [updateFirstMovie, ha],
        List.mem_cons_self _ rest⟩
    · have hmrest : m ∈ rest := by
        rcases List.mem_cons.1 hm with h | h
        · exact absurd (h ▸ hid) ha
        · exact h
      obtain ⟨m', l', hm', hid', heq, hmem⟩ := ih ⟨m, hmrest, hid⟩
      exact ⟨m', a :: l', List.mem_cons_of_mem a hm', hid',
        by simp [updateFirstMovie, ha, heq],
        List.mem_cons_of_mem a hmem⟩

/-- updateFirstMovie preserves the list of ids -/
theorem updateFirstMovie_map_id (input : UpdateMovieInput) :
    ∀ (l l' : List Movie) (u : Movie),
      updateFirstMovie input l = some (u, l') →
      l'.map (fun m => m.id) = l.map (fun m => m.id) := by
  intro l
  induction l with
  | nil => intro l' u h; simp [updateFirstMovie] at h
  | cons a rest ih =>
    intro l' u h
    by_cases ha : a.id = input.id
    · simp [updateFirstMovie, ha] at h
      simp [← h.2, applyMovieUpdate_id]
    · simp only [updateFirstMovie, ha, if_neg, ite_false] at h
      cases heq : updateFirstMovie input rest with
      | none => rw [heq] at h; simp at h
      | some p =>
        rw [heq] at h
        simp at h
        cases p with
        | mk u0 rest' =>
          obtain ⟨h1, h2⟩ := h
          subst h2
          simp [ih rest' u0 heq]

/-- popFirstMovie returns a sublist of the original list -/
theorem popFirstMovie_sublist (i : Nat) :
    ∀ (l l' : List Movie) (r : Movie),
      popFirstMovie i l = some (r, l') → l'.Sublist l := by
  intro l
  induction l with
  | nil => intro l' r h; simp [popFirstMovie] at h
  | cons a rest ih =>
    intro l' r h
    by_cases ha : a.id = i
    · simp [popFirstMovie, ha] at h
      exact h.2 ▸ List.sublist_cons_self a rest
    · simp only [popFirstMovie, ha, if_neg, ite_false] at h
      cases heq : popFirstMovie i rest with
      | none => rw [heq] at h; simp at h
      | some p =>
        rw [heq] at h
        simp at h
        cases p with
        | mk r0 rest' =>
          obtain ⟨h1, h2⟩ := h
          subst h2
          exact List.Sublist.cons₂ a (ih rest' r0 heq)

end CatalogLemmas

/-- C1 counterexample: the Mutation class actually served by src/main.py
performs no authentication check at all: its add_movie, called in a process
where no resolved user exists (main.py builds no request context and never
calls require_login), succeeds and mutates the catalog - it grows the movie
list and bumps the id counter instead of failing with the login-required
(Unauthenticated) error. -/
theorem C1_counterexample :
    (Main.add_movie Main.mainSeed
      { title := "Dune", year := 2021, rating := 4 }).1.ok = true ∧
    (Main.add_movie Main.mainSeed
      { title := "Dune", year := 2021, rating := 4 }).2.movies.length
      = Main.mainSeed.movies.length + 1 ∧
    (Main.add_movie Main.mainSeed
      { title := "Dune", year := 2021, rating := 4 }).2.nextId
      = Main.mainSeed.nextId + 1 :=
  ⟨rfl, rfl, rfl⟩

/-- C1 (amended): every catalog mutation of the auth-gated schema module
src/app_graphql/schema.py - add_actor, delete_actor, update_actor, add_movie,
delete_movie, update_movie - when the request context holds no resolved user,
fails with the raised login-required error (the spec taxonomy's
Unauthenticated) and performs no state change: the actor list, movie list and
id counter are identical before and after the call.  The duplicate movie
mutations served by src/main.py perform no authentication check, as the
counterexample shows. -/
theorem C1_schema_mutations_require_login (ctx : Auth.Context)
    (h : ctx.user = none) :
    (∀ s input, AppSchema.add_actor ctx s input
      = (Except.error "Login required", s)) ∧
    (∀ s input, AppSchema.delete_actor ctx s input
      = (Except.error "Login required", s)) ∧
    (∀ s input, AppSchema.update_actor ctx s input
      = (Except.error "Login required", s)) ∧
    (∀ s input, AppSchema.add_movie ctx s input
      = (Except.error "Login required", s)) ∧
    (∀ s input, AppSchema.delete_movie ctx s input
      = (Except.error "Login required", s)) ∧
    (∀ s input, AppSchema.update_movie ctx s input
      = (Except.error "Login required", s)) := by
  refine ⟨?_, ?_, ?_, ?_, ?_, ?_⟩ <;>
    intro s input <;>
    simp [AppSchema.add_actor, AppSchema.delete_actor, AppSchema.update_actor,
          AppSchema.add_movie, AppSchema.delete_movie, AppSchema.update_movie,
          Auth.require_login, h]

/-- C1 witness: on the anonymous context and the seed state, each of the six
gated mutations fails with the login-required error and returns the state
unchanged. -/
theorem C1_witness :
    ctxAnon.user = none ∧
    AppSchema.add_actor ctxAnon AppSchema.schemaSeed
      { name := "Timothee Chalamet", movie_id := 1 }
      = (Except.error "Login required", AppSchema.schemaSeed) ∧
    AppSchema.delete_actor ctxAnon AppSchema.schemaSeed { id := 1 }
      = (Except.error "Login required", AppSchema.schemaSeed) ∧
    AppSchema.update_actor ctxAnon AppSchema.schemaSeed { id := 1 }
      = (Except.error "Login required", AppSchema.schemaSeed) ∧
    AppSchema.add_movie ctxAnon AppSchema.schemaSeed
      { title := "Dune", year := 2021, rating := 4 }
      = (Except.error "Login required", AppSchema.schemaSeed) ∧
    AppSchema.delete_movie ctxAnon AppSchema.schemaSeed { id := 1 }
      = (Except.error "Login required", AppSchema.schemaSeed) ∧
    AppSchema.update_movie ctxAnon AppSchema.schemaSeed { id := 1 }
      = (Except.error "Login required", AppSchema.schemaSeed) :=
  ⟨rfl,
   (C1_schema_mutations_require_login ctxAnon rfl).1 _ _,
   (C1_schema_mutations_require_login ctxAnon rfl).2.1 _ _,
   (C1_schema_mutations_require_login ctxAnon rfl).2.2.1 _ _,
   (C1_schema_mutations_require_login ctxAnon rfl).2.2.2.1 _ _,
   (C1_schema_mutations_require_login ctxAnon rfl).2.2.2.2.1 _ _,
   (C1_schema_mutations_require_login ctxAnon rfl).2.2.2.2.2 _ _⟩

/-- C5: the update_movie mutation, called with an id that matches no movie in
the catalog, returns ok false with movie absent and with the reused
rating-validation error text rather than a distinct not-found message, and
the catalog state is unchanged. -/
theorem C5_update_movie_not_found (s : Main.MovieState)
    (input : Catalog.UpdateMovieInput)
    (h : ∀ m ∈ s.movies, m.id ≠ input.id) :
    Main.update_movie s input
      = ({ ok := false, error := some "Rating must be between 0 and 5",
           movie := none }, s) := by
  simp [Main.update_movie, updateFirstMovie_eq_none input s.movies h]

/-- C5 witness: updating id 99 on the seed catalog (ids 1 and 2) yields the
mislabeled rating message and leaves the state untouched. -/
theorem C5_witness :
    (∀ m ∈ Main.mainSeed.movies, m.id ≠ (99 : Nat)) ∧
    Main.update_movie Main.mainSeed { id := 99 }
      = ({ ok := false, error := some "Rating must be between 0 and 5",
           movie := none }, Main.mainSeed) :=
  ⟨by decide, C5_update_movie_not_found Main.mainSeed { id := 99 } (by decide)⟩

/-- C6 counterexample: an AddMovieInput whose rating 6 lies outside the
0 to 5 range but whose title is blank is answered with the empty-title error,
not the rating error, because the title check runs first - refuting the
claim for every such input. -/
theorem C6_counterexample :
    ¬ ((0 : ℚ) ≤ 6 ∧ (6 : ℚ) ≤ 5) ∧
    Main.add_movie Main.mainSeed { title := "", year := 2021, rating := 6 }
      = ({ ok := false, error := some "Title cannot be empty", movie := none },
         Main.mainSeed) ∧
    some "Title cannot be empty" ≠ some "Rating must be between 0 and 5" :=
  ⟨by decide, rfl, by decide⟩

/-- C6 (amended): for every AddMovieInput whose title is not blank and whose
rating lies outside the 0 to 5 range, add_movie returns ok false with exactly
the rating error message and movie absent, raises nothing, and leaves the
whole state - movie list and id counter included - unchanged. -/
theorem C6_add_movie_bad_rating (s : Main.MovieState)
    (input : Catalog.AddMovieInput)
    (htitle : Catalog.stripChars input.title ≠ "")
    (hr : ¬ ((0 : ℚ) ≤ input.rating ∧ input.rating ≤ 5)) :
    Main.add_movie s input
      = ({ ok := false, error := some "Rating must be between 0 and 5",
           movie := none }, s) := by
  simp [Main.add_movie, htitle, hr]

/-- C6 witness: adding Dune with rating 6 on the seed catalog returns the
rating error and changes nothing. -/
theorem C6_witness :
    Catalog.stripChars "Dune" ≠ "" ∧
    ¬ ((0 : ℚ) ≤ 6 ∧ (6 : ℚ) ≤ 5) ∧
    Main.add_movie Main.mainSeed { title := "Dune", year := 2021, rating := 6 }
      = ({ ok := false, error := some "Rating must be between 0 and 5",
           movie := none }, Main.mainSeed) :=
  ⟨by decide, by decide,
   C6_add_movie_bad_rating Main.mainSeed
     { title := "Dune", year := 2021, rating := 6 } (by decide) (by decide)⟩

/-- C7: with a resolved user in the request context and an AddMovieInput
whose title is not blank and whose rating lies within 0 to 5, the gated
add_movie returns ok true with no error and a movie carrying the freshly
assigned NEXT_ID id and exactly the given title, year and rating; that movie
is appended to the catalog's movie list, the counter is bumped, and the actor
list is untouched. -/
theorem C7_add_movie_success (ctx : Auth.Context) (u : Auth.User)
    (s : AppSchema.State) (input : Catalog.AddMovieInput)
    (hu : ctx.user = some u)
    (htitle : Catalog.stripChars input.title ≠ "")
    (hr : (0 : ℚ) ≤ input.rating ∧ input.rating ≤ 5) :
    AppSchema.add_movie ctx s input
      = (Except.ok
          { ok := true, error := none,
            movie := some { id := s.nextId, title := input.title,
                            year := input.year, rating := input.rating } },
         { s with
             movies := s.movies ++
               [{ id := s.nextId, title := input.title,
                  year := input.year, rating := input.rating }],
             nextId := s.nextId + 1 }) := by
  simp [AppSchema.add_movie, Auth.require_login, hu, htitle, hr.1, hr.2]

/-- C7 witness: with the demo user logged in, adding Dune (year 2021,
rating 4) to the seed catalog returns ok true with the new movie of id 3 and
appends it. -/
theorem C7_witness :
    ctxDemo.user = some { id := 1, email := "demo@example.com",
                          hashed_password := "pbkdf2-hash",
                          is_active := true } ∧
    Catalog.stripChars "Dune" ≠ "" ∧
    ((0 : ℚ) ≤ 4 ∧ (4 : ℚ) ≤ 5) ∧
    AppSchema.add_movie ctxDemo AppSchema.schemaSeed
        { title := "Dune", year := 2021, rating := 4 }
      = (Except.ok
          { ok := true, error := none,
            movie := some { id := 3, title := "Dune", year := 2021,
                            rating := 4 } },
         { AppSchema.schemaSeed with
             movies := AppSchema.schemaSeed.movies ++
               [{ id := 3, title := "Dune", year := 2021, rating := 4 }],
             nextId := 4 }) :=
  ⟨rfl, by decide, by decide,
   C7_add_movie_success ctxDemo
     { id := 1, email := "demo@example.com",
       hashed_password := "pbkdf2-hash", is_active := true }
     AppSchema.schemaSeed
     { title := "Dune", year := 2021, rating := 4 }
     rfl (by decide) (by decide)⟩

/-- C10: update_movie applies no empty-title validation: for any movie
present in the catalog, updating it with the empty (or any whitespace-only)
string as title answers ok true with no error, and the stored movie now
carries that blank title. -/
theorem C10_update_movie_empty_title (s : Main.MovieState) (i : Nat)
    (t : String) (hmem : ∃ m ∈ s.movies, m.id = i)
    (_ht : Catalog.stripChars t = "") :
    ∃ u : Catalog.Movie,
      (Main.update_movie s { id := i, title := some t }).1
        = { ok := true, error := none, movie := some u } ∧
      u.title = t ∧
      u ∈ (Main.update_movie s { id := i, title := some t }).2.movies := by
  obtain ⟨m, l', hm, hid, heq, hmem'⟩ :=
    updateFirstMovie_found { id := i, title := some t } s.movies hmem
  refine ⟨Catalog.applyMovieUpdate m { id := i, title := some t }, ?_, rfl, ?_⟩
  · simp [Main.update_movie, heq]
  · simp [Main.update_movie, heq, hmem']

/-- C10 witness: updating movie 1 of the seed catalog with the empty title
succeeds and stores the empty title. -/
theorem C10_witness :
    (∃ m ∈ Main.mainSeed.movies, m.id = 1) ∧
    Catalog.stripChars "" = "" ∧
    (∃ u : Catalog.Movie,
      (Main.update_movie Main.mainSeed { id := 1, title := some "" }).1
        = { ok := true, error := none, movie := some u } ∧
      u.title = "" ∧
      u ∈ (Main.update_movie Main.mainSeed
            { id := 1, title := some "" }).2.movies) :=
  ⟨by decide, by decide,
   C10_update_movie_empty_title Main.mainSeed 1 "" (by decide) (by decide)⟩

/-- C9: the id-freshness invariant - every stored movie id strictly below the
NEXT_ID counter and all ids pairwise distinct - holds for the seed catalog
(ids 1 and 2 below counter 3) and is preserved by add_movie (which assigns
the counter as the new id, then bumps it), by delete_movie, and by
update_movie (which never writes the id field); moreover any movie a call to
add_movie hands back in its payload carries an id that duplicates no id
already stored. -/
theorem C9_movie_id_invariant :
    MovieInv Main.mainSeed ∧
    (∀ s input, MovieInv s → MovieInv (Main.add_movie s input).2) ∧
    (∀ s input, MovieInv s → MovieInv (Main.delete_movie s input).2) ∧
    (∀ s input, MovieInv s → MovieInv (Main.update_movie s input).2) ∧
    (∀ s input mv, MovieInv s →
      (Main.add_movie s input).1.movie = some mv →
      mv.id ∉ s.movies.map (fun m => m.id)) := by
  refine ⟨by decide, ?_, ?_, ?_, ?_⟩
  · -- add_movie preserves the invariant
    intro s input hinv
    by_cases h1 : Catalog.stripChars input.title = ""
    · have heq : (Main.add_movie s input).2 = s := by
        simp [Main.add_movie, h1]
      rw [heq]; exact hinv
    · by_cases h2 : (0 : ℚ) ≤ input.rating ∧ input.rating ≤ 5
      · have heq : (Main.add_movie s input).2
            = { movies := s.movies ++
                  [{ id := s.nextId, title := input.title,
                     year := input.year, rating := input.rating }],
                nextId := s.nextId + 1 } := by
          simp [Main.add_movie, h1, h2.1, h2.2]
        rw [heq]
        constructor
        · intro m hm
          rcases List.mem_append.1 hm with h | h
          · exact Nat.lt_succ_of_lt (hinv.1 m h)
          · rw [List.mem_singleton] at h
            rw [h]
            exact Nat.lt_succ_self s.nextId
        · show (List.map (fun m : Catalog.Movie => m.id)
              (s.movies ++
                [({ id := s.nextId, title := input.title,
                    year := input.year, rating := input.rating }
                  : Catalog.Movie)])).Nodup
          rw [List.map_append]
          refine List.Nodup.append hinv.2 (List.nodup_singleton _) ?_
          intro a ha hb
          simp at hb
          rcases List.mem_map.1 ha with ⟨m, hm, hid0⟩
          have hlt : a < s.nextId := hid0 ▸ hinv.1 m hm
          rw [hb] at hlt
          exact lt_irrefl _ hlt
      · have heq : (Main.add_movie s input).2 = s := by
          simp [Main.add_movie, h1, h2]
        rw [heq]; exact hinv
  · -- delete_movie preserves the invariant
    intro s input hinv
    cases hpop : Catalog.popFirstMovie input.id s.movies with
    | none =>
      have heq : (Main.delete_movie s input).2 = s := by
        simp [Main.delete_movie, hpop]
      rw [heq]; exact hinv
    | some p =>
      cases p with
      | mk r rest =>
        have hsub := popFirstMovie_sublist input.id s.movies rest r hpop
        have heq : (Main.delete_movie s input).2 = { s with movies := rest } := by
          simp [Main.delete_movie, hpop]
        rw [heq]
        constructor
        · intro m hm
          exact hinv.1 m (hsub.subset hm)
        · exact List.Nodup.sublist (hsub.map (fun m => m.id)) hinv.2
  · -- update_movie preserves the invariant
    intro s input hinv
    cases hup : Catalog.updateFirstMovie input s.movies with
    | none =>
      have heq : (Main.update_movie s input).2 = s := by
        simp [Main.update_movie, hup]
      rw [heq]; exact hinv
    | some p =>
      cases p with
      | mk u ms' =>
        have hmap := updateFirstMovie_map_id input s.movies ms' u hup
        have hnew : MovieInv { movies := ms', nextId := s.nextId } := by
          constructor
          · intro m hm
            have hmem : m.id ∈ ms'.map (fun m => m.id) :=
              List.mem_map.2 ⟨m, hm, rfl⟩
            rw [hmap] at hmem
            rcases List.mem_map.1 hmem with ⟨m0, hm0, hid0⟩
            exact hid0 ▸ hinv.1 m0 hm0
          · show (ms'.map (fun m => m.id)).Nodup
            rw [hmap]
            exact hinv.2
        cases hrat : input.rating with
        | none =>
          have heq : (Main.update_movie s input).2 = { s with movies := ms' } := by
            simp [Main.update_movie, hup, hrat]
          rw [heq]; exact hnew
        | some r =>
          by_cases hr : (0 : ℚ) ≤ r ∧ r ≤ 5
          · have heq : (Main.update_movie s input).2 = { s with movies := ms' } := by
              simp [Main.update_movie, hup, hrat, hr.1, hr.2]
            rw [heq]; exact hnew
          · have heq : (Main.update_movie s input).2 = s := by
              simp [Main.update_movie, hup, hrat, hr]
            rw [heq]; exact hinv
  · -- a movie returned by add_movie carries a fresh id
    intro s input mv hinv hmv
    by_cases h1 : Catalog.stripChars input.title = ""
    · simp [Main.add_movie, h1] at hmv
    · by_cases h2 : (0 : ℚ) ≤ input.rating ∧ input.rating ≤ 5
      · simp [Main.add_movie, h1, h2.1, h2.2] at hmv
        intro hmem
        rcases List.mem_map.1 hmem with ⟨m, hm, hid0⟩
        have hlt := hinv.1 m hm
        rw [hid0, ← hmv] at hlt
        simp at hlt
      · simp [Main.add_movie, h1, h2] at hmv

/-- C9 witness: the seed catalog satisfies the invariant, and it still holds
after adding Dune, after deleting movie 1, and after a title update of
movie 2. -/
theorem C9_witness :
    MovieInv Main.mainSeed ∧
    MovieInv (Main.add_movie Main.mainSeed
      { title := "Dune", year := 2021, rating := 4 }).2 ∧
    MovieInv (Main.delete_movie Main.mainSeed { id := 1 }).2 ∧
    MovieInv (Main.update_movie Main.mainSeed
      { id := 2, title := some "Tenet" }).2 ∧
    ((Main.add_movie Main.mainSeed
        { title := "Dune", year := 2021, rating := 4 }).1.movie
      = some { id := 3, title := "Dune", year := 2021, rating := 4 } ∧
     ({ id := 3, title := "Dune", year := 2021, rating := 4 }
        : Catalog.Movie).id
       ∉ Main.mainSeed.movies.map (fun m => m.id)) :=
  ⟨C9_movie_id_invariant.1,
   C9_movie_id_invariant.2.1 Main.mainSeed
     { title := "Dune", year := 2021, rating := 4 }
     C9_movie_id_invariant.1,
   C9_movie_id_invariant.2.2.1 Main.mainSeed { id := 1 }
     C9_movie_id_invariant.1,
   C9_movie_id_invariant.2.2.2.1 Main.mainSeed
     { id := 2, title := some "Tenet" }
     C9_movie_id_invariant.1,
   rfl,
   C9_movie_id_invariant.2.2.2.2 Main.mainSeed
     { title := "Dune", year := 2021, rating := 4 }
     { id := 3, title := "Dune", year := 2021, rating := 4 }
     C9_movie_id_invariant.1 rfl⟩

section RenderLemmas

open Render Catalog

/-- every serialised AddMoviePayload has the uniform ok / error / entity
shape -/
theorem renderAddMoviePayload_uniform (p : AddMoviePayload) :
    isUniformPayload (renderAddMoviePayload p) = true := by
  cases p with
  | mk ok error movie => cases error <;> cases movie <;> rfl

/-- every serialised UpdateMoviePayload has the uniform shape -/
theorem renderUpdateMoviePayload_uniform (p : UpdateMoviePayload) :
    isUniformPayload (renderUpdateMoviePayload p) = true := by
  cases p with
  | mk ok error movie => cases error <;> cases movie <;> rfl

/-- every serialised DeleteMoviePayload has the uniform shape -/
theorem renderDeleteMoviePayload_uniform (p : DeleteMoviePayload) :
    isUniformPayload (renderDeleteMoviePayload p) = true := by
  cases p with
  | mk ok error movie => cases error <;> cases movie <;> rfl

/-- every serialised UpdateActorPayload has the uniform shape -/
theorem renderUpdateActorPayload_uniform (p : UpdateActorPayload) :
    isUniformPayload (renderUpdateActorPayload p) = true := by
  cases p with
  | mk ok error actor => cases error <;> cases actor <;> rfl

/-- every serialised DeleteActorPayload has the uniform shape -/
theorem renderDeleteActorPayload_uniform (p : DeleteActorPayload) :
    isUniformPayload (renderDeleteActorPayload p) = true := by
  cases p with
  | mk ok error actor => cases error <;> cases actor <;> rfl

end RenderLemmas

/-- C8 counterexample: add_actor does not return the uniform structured
payload: its successful graph response (here, with the demo user logged in,
on the seed state) is the bare serialised Actor record, which carries a name
field but no ok field and fails the uniform-shape test. -/
theorem C8_counterexample :
    Render.isUniformPayload (Render.addActorResponse ctxDemo
        AppSchema.schemaSeed { name := "Timothee Chalamet", movie_id := 1 })
      = false ∧
    Render.hasField (Render.addActorResponse ctxDemo AppSchema.schemaSeed
        { name := "Timothee Chalamet", movie_id := 1 }) "ok" = false ∧
    Render.hasField (Render.addActorResponse ctxDemo AppSchema.schemaSeed
        { name := "Timothee Chalamet", movie_id := 1 }) "name" = true :=
  ⟨rfl, rfl, rfl⟩

/-- C8 (amended): of the catalog mutations exposed on the graph endpoint,
delete_actor, update_actor, add_movie, delete_movie and update_movie return
the uniform structured payload shape - ok boolean, error string or absent,
entity record or absent - for every input on which they return a payload at
all; add_actor alone returns the bare Actor record instead. -/
theorem C8_payload_shape :
    (∀ ctx s input,
      (match (AppSchema.delete_actor ctx s input).1 with
       | Except.ok p => Render.isUniformPayload (Render.renderDeleteActorPayload p)
       | Except.error _ => true) = true) ∧
    (∀ ctx s input,
      (match (AppSchema.update_actor ctx s input).1 with
       | Except.ok p => Render.isUniformPayload (Render.renderUpdateActorPayload p)
       | Except.error _ => true) = true) ∧
    (∀ ctx s input,
      (match (AppSchema.add_movie ctx s input).1 with
       | Except.ok p => Render.isUniformPayload (Render.renderAddMoviePayload p)
       | Except.error _ => true) = true) ∧
    (∀ ctx s input,
      (match (AppSchema.delete_movie ctx s input).1 with
       | Except.ok p => Render.isUniformPayload (Render.renderDeleteMoviePayload p)
       | Except.error _ => true) = true) ∧
    (∀ ctx s input,
      (match (AppSchema.update_movie ctx s input).1 with
       | Except.ok p => Render.isUniformPayload (Render.renderUpdateMoviePayload p)
       | Except.error _ => true) = true) := by
  refine ⟨?_, ?_, ?_, ?_, ?_⟩ <;> intro ctx s input
  · cases (AppSchema.delete_actor ctx s input).1 with
    | ok p => exact renderDeleteActorPayload_uniform p
    | error e => rfl
  · cases (AppSchema.update_actor ctx s input).1 with
    | ok p => exact renderUpdateActorPayload_uniform p
    | error e => rfl
  · cases (AppSchema.add_movie ctx s input).1 with
    | ok p => exact renderAddMoviePayload_uniform p
    | error e => rfl
  · cases (AppSchema.delete_movie ctx s input).1 with
    | ok p => exact renderDeleteMoviePayload_uniform p
    | error e => rfl
  · cases (AppSchema.update_movie ctx s input).1 with
    | ok p => exact renderUpdateMoviePayload_uniform p
    | error e => rfl
